import Mathlib

/-!
Formal model of the link-geometry engine of react-d3-graph
(`link.const.js` and `link.helper.js`).

JavaScript numbers are modelled as real numbers (`ℝ`), `Math.sin`,
`Math.cos`, `Math.sqrt` as `Real.sin`, `Real.cos`, `Real.sqrt`, and
`Math.atan2 y x` as the argument of the complex number `x + y·i`
(`Complex.arg`), which matches atan2's range `(-π, π]` and its value `0`
at the origin.  The SVG path string produced by `buildLinkPathDefinition`
is modelled as a list of path commands (`PathCmd`) carrying the numeric
arguments that the source interpolates into the string; for
integer-valued coordinates the mirror type `PathCmdZ` renders to the
exact string the source emits.
-/

/-- Math.atan2 of JavaScript: `atan2 y x` is the angle of the vector
`(x, y)`, modelled as the complex argument of `x + y·i`. -/
noncomputable def Math.atan2 (y x : ℝ) : ℝ :=
  Complex.arg ⟨x, y⟩

/-- A coordinate object `{ x, y }` as consumed by the link helpers. -/
structure Coords where
  x : ℝ
  y : ℝ

/-- `LINE_TYPES.STRAIGHT` from link.const.js. -/
def LINE_TYPES_STRAIGHT : String := "STRAIGHT"

/-- `LINE_TYPES.CURVE_SMOOTH` from link.const.js. -/
def LINE_TYPES_CURVE_SMOOTH : String := "CURVE_SMOOTH"

/-- `LINE_TYPES.CURVE_FULL` from link.const.js. -/
def LINE_TYPES_CURVE_FULL : String := "CURVE_FULL"

/-- Property lookup `LINE_TYPES[type]` on the `LINE_TYPES` object of
link.const.js; `none` models the `undefined` result for unknown keys. -/
def LINE_TYPES_lookup (type : String) : Option String :=
  if type = LINE_TYPES_STRAIGHT then some LINE_TYPES_STRAIGHT
  else if type = LINE_TYPES_CURVE_SMOOTH then some LINE_TYPES_CURVE_SMOOTH
  else if type = LINE_TYPES_CURVE_FULL then some LINE_TYPES_CURVE_FULL
  else none

/-- `LINE_POS_OFFSET` from link.const.js: offset, in pixels, to slightly
shift the line by to prevent collision between links in opposite
directions. -/
def LINE_POS_OFFSET : ℝ := 3

/-- Modelled from the spec: the `SELF_LINK_DIRECTION` constant object is
imported by link.helper.js from link.const.js but its literal is not
among the provided sources; per the spec `selfLinkDirection` ranges over
TOP_RIGHT (the default), TOP_LEFT, BOTTOM_LEFT and BOTTOM_RIGHT.  This
is the `TOP_RIGHT` member. -/
def SELF_LINK_DIRECTION_TOP_RIGHT : String := "TOP_RIGHT"

/-- Modelled from the spec: the `TOP_LEFT` member of `SELF_LINK_DIRECTION`. -/
def SELF_LINK_DIRECTION_TOP_LEFT : String := "TOP_LEFT"

/-- Modelled from the spec: the `BOTTOM_LEFT` member of `SELF_LINK_DIRECTION`. -/
def SELF_LINK_DIRECTION_BOTTOM_LEFT : String := "BOTTOM_LEFT"

/-- Modelled from the spec: the `BOTTOM_RIGHT` member of `SELF_LINK_DIRECTION`. -/
def SELF_LINK_DIRECTION_BOTTOM_RIGHT : String := "BOTTOM_RIGHT"

/-- `straightLineRadius` of link.helper.js: computes radius value for a
straight line.  The source function takes no parameters and the extra
call arguments are ignored by JavaScript, hence the ignored binders. -/
def straightLineRadius (_x1 _y1 _x2 _y2 : ℝ) : ℝ := 0

/-- `smoothCurveRadius` of link.helper.js: computes radius for a smooth
curve effect. -/
noncomputable def smoothCurveRadius (x1 y1 x2 y2 : ℝ) : ℝ :=
  Real.sqrt ((x2 - x1) * (x2 - x1) + (y2 - y1) * (y2 - y1))

/-- `fullCurveRadius` of link.helper.js: computes radius value for a full
curve (semi circumference).  Extra call arguments are ignored. -/
def fullCurveRadius (_x1 _y1 _x2 _y2 : ℝ) : ℝ := 1

/-- Property lookup on the `RADIUS_STRATEGIES` object of link.helper.js. -/
noncomputable def RADIUS_STRATEGIES (type : String) : Option (ℝ → ℝ → ℝ → ℝ → ℝ) :=
  if type = LINE_TYPES_STRAIGHT then some straightLineRadius
  else if type = LINE_TYPES_CURVE_SMOOTH then some smoothCurveRadius
  else if type = LINE_TYPES_CURVE_FULL then some fullCurveRadius
  else none

/-- `getRadiusStrategy` of link.helper.js: `RADIUS_STRATEGIES[type] ||
RADIUS_STRATEGIES[LINE_TYPES.STRAIGHT]`. -/
noncomputable def getRadiusStrategy (type : String) : ℝ → ℝ → ℝ → ℝ → ℝ :=
  (RADIUS_STRATEGIES type).getD straightLineRadius

open Classical in
/-- `angleBetweenPoints` of link.helper.js: returns the angle between the
line defined by the given points and the X axis. -/
noncomputable def angleBetweenPoints (x1 y1 x2 y2 : ℝ) : ℝ :=
  if x1 = x2 then
    if y1 > y2 then -(Real.pi / 2) else Real.pi / 2
  else
    Math.atan2 (y2 - y1) (x2 - x1)

/-- A command of the SVG-path mini-language emitted by
`buildLinkPathDefinition`: `M x,y`, `L x,y`, or
`A rx,ry rot laf,sf x,y`. -/
inductive PathCmd where
  | move (x y : ℝ)
  | line (x y : ℝ)
  | arc (rx ry rot : ℝ) (laf sf : ℕ) (x y : ℝ)

/-- Whether a path command is an arc (`A`) command. -/
def PathCmd.isArc : PathCmd → Prop
  | .arc _ _ _ _ _ _ _ => True
  | _ => False

/-- The `const offsetX = LINE_POS_OFFSET * Math.sin(angleBetweenPoints(sx, sy, tx, ty))`
computation of link.helper.js (also the per-segment `offsetsX`). -/
noncomputable def offsetX (sx sy tx ty : ℝ) : ℝ :=
  LINE_POS_OFFSET * Real.sin (angleBetweenPoints sx sy tx ty)

/-- The `const offsetY = LINE_POS_OFFSET * -Math.cos(angleBetweenPoints(sx, sy, tx, ty))`
computation of link.helper.js (also the per-segment `offsetsY`). -/
noncomputable def offsetY (sx sy tx ty : ℝ) : ℝ :=
  LINE_POS_OFFSET * -(Real.cos (angleBetweenPoints sx sy tx ty))

/-- One iteration of the `restOfLinkPoints.map` callback in
`buildLinkPathDefinition`: `prev` is `restOfLinkPoints[i-1]` for `i > 0`
and `sourceCoords` for `i = 0`, `cur` is the current point.  Note the
emitted arc's endpoint is `offsetsX,offsetsY` exactly as in the source
template string. -/
noncomputable def linkSegment (calcRadiusFn : ℝ → ℝ → ℝ → ℝ → ℝ)
    (prev cur : Coords) : PathCmd :=
  let offsetsX := offsetX prev.x prev.y cur.x cur.y
  let offsetsY := offsetY prev.x prev.y cur.x cur.y
  let sxOffset := prev.x + offsetsX
  let syOffset := prev.y + offsetsY
  let txOffset := cur.x + offsetsX
  let tyOffset := cur.y + offsetsY
  let radius := calcRadiusFn sxOffset syOffset txOffset tyOffset
  PathCmd.arc radius radius 0 0 1 offsetsX offsetsY

open Classical in
/-- `buildLinkPathDefinition` of link.helper.js: returns the path
definition for a given link based on the line type and the link source
and target.  The indexed `map` over `restOfLinkPoints` (whose callback
reads the previous point) is modelled by zipping the list with itself
shifted by one and fronted by `sourceCoords`. -/
noncomputable def buildLinkPathDefinition (sourceCoords targetCoords : Coords)
    (type : String) (breakPoints : List Coords)
    (sourceId targetId : String) (selfLinkDirection : String) : List PathCmd :=
  let sx := sourceCoords.x
  let sy := sourceCoords.y
  let tx := targetCoords.x
  let ty := targetCoords.y
  if sourceId = targetId ∧ sx = tx ∧ sy = ty then
    if selfLinkDirection = SELF_LINK_DIRECTION_TOP_LEFT then
      [PathCmd.move sx sy, PathCmd.arc 40 30 45 1 1 (tx + 1) (ty - 1)]
    else if selfLinkDirection = SELF_LINK_DIRECTION_BOTTOM_LEFT then
      [PathCmd.move sx sy, PathCmd.arc 40 30 (-45) 1 1 (tx - 1) (ty - 1)]
    else if selfLinkDirection = SELF_LINK_DIRECTION_BOTTOM_RIGHT then
      [PathCmd.move sx sy, PathCmd.arc 40 30 45 1 1 (tx - 1) (ty + 1)]
    else
      [PathCmd.move sx sy, PathCmd.arc 40 30 (-45) 1 1 (tx + 1) (ty + 1)]
  else
    let validType := (LINE_TYPES_lookup type).getD LINE_TYPES_STRAIGHT
    let calcRadiusFn := getRadiusStrategy validType
    let restOfLinkPoints := breakPoints ++ [targetCoords]
    let restOfLinkPath :=
      List.zipWith (linkSegment calcRadiusFn)
        (sourceCoords :: restOfLinkPoints) restOfLinkPoints
    let oX := offsetX sx sy tx ty
    let oY := offsetY sx sy tx ty
    let sxReal := sx + oX
    let syReal := sy + oY
    let txReal := tx + oX
    let tyReal := ty + oY
    let midX := (txReal - sxReal) * 0.9 + sxReal
    let midY := (tyReal - syReal) * 0.9 + syReal
    PathCmd.move sxReal syReal :: PathCmd.line midX midY :: restOfLinkPath

/-- A path command carrying integer arguments; on such commands the
string interpolation of the source can be rendered exactly (for
integer-valued JavaScript numbers `${n}` prints the plain decimal). -/
inductive PathCmdZ where
  | move (x y : ℤ)
  | arc (rx ry rot : ℤ) (laf sf : ℕ) (x y : ℤ)

/-- Reading an integer path command as a real one. -/
def PathCmdZ.toPathCmd : PathCmdZ → PathCmd
  | .move x y => PathCmd.move (x : ℝ) (y : ℝ)
  | .arc rx ry rot laf sf x y =>
      PathCmd.arc (rx : ℝ) (ry : ℝ) (rot : ℝ) laf sf (x : ℝ) (y : ℝ)

/-- Renders one integer path command exactly as the template strings of
`buildLinkPathDefinition` do (an arc is preceded by the space of the
template). -/
def renderCmdZ : PathCmdZ → String
  | .move x y => "M" ++ toString x ++ "," ++ toString y
  | .arc rx ry rot laf sf x y =>
      " A" ++ toString rx ++ "," ++ toString ry ++ " " ++ toString rot ++ " "
        ++ toString laf ++ "," ++ toString sf ++ " "
        ++ toString x ++ "," ++ toString y

/-- Renders a list of integer path commands to the emitted string. -/
def renderPathZ (cmds : List PathCmdZ) : String :=
  String.join (cmds.map renderCmdZ)

/-- The Euclidean distance `sqrt((x2−x1)² + (y2−y1)²)` between two
points, as the spec phrases the curve-smooth radius. -/
noncomputable def euclideanDistance (x1 y1 x2 y2 : ℝ) : ℝ :=
  Real.sqrt ((x2 - x1) ^ 2 + (y2 - y1) ^ 2)

/-! ### Helper lemmas -/

/-- Every element of a `zipWith` is the image of some pair of elements. -/
lemma exists_of_mem_zipWith {α β γ : Type} {f : α → β → γ} :
    ∀ {l1 : List α} {l2 : List β} {c : γ}, c ∈ List.zipWith f l1 l2 →
      ∃ a b, c = f a b := by
  intro l1
  induction l1 with
  | nil => intro l2 c h; simp at h
  | cons a l ih =>
      intro l2 c h
      cases l2 with
      | nil => simp at h
      | cons b l2' =>
          rcases List.mem_cons.mp h with h | h
          · exact ⟨a, b, h⟩
          · exact ih h

/-- atan2 of a positive vertical vector is `π/2`. -/
lemma atan2_pos_zero {d : ℝ} (hd : 0 < d) : Math.atan2 d 0 = Real.pi / 2 := by
  unfold Math.atan2
  exact Complex.arg_eq_pi_div_two_iff.mpr ⟨rfl, hd⟩

/-- atan2 of a negative vertical vector is `-(π/2)`. -/
lemma atan2_neg_zero {d : ℝ} (hd : d < 0) : Math.atan2 d 0 = -(Real.pi / 2) := by
  unfold Math.atan2
  exact Complex.arg_eq_neg_pi_div_two_iff.mpr ⟨rfl, hd⟩

/-- atan2 of the zero vector is `0`, as in JavaScript. -/
lemma atan2_zero_zero : Math.atan2 0 0 = 0 := by
  unfold Math.atan2
  have h : (⟨0, 0⟩ : ℂ) = 0 := Complex.ext rfl rfl
  rw [h, Complex.arg_zero]

/-- atan2 of a vector pointing along the positive X axis is `0`. -/
lemma atan2_zero_pos {d : ℝ} (hd : 0 ≤ d) : Math.atan2 0 d = 0 := by
  unfold Math.atan2
  have h : (⟨d, 0⟩ : ℂ) = (d : ℂ) := Complex.ext rfl rfl
  rw [h]
  exact Complex.arg_ofReal_of_nonneg hd

/-- On inputs that are not vertically aligned, `angleBetweenPoints` is the
general arctangent formula; on vertically aligned but distinct points the
explicit branch agrees with it.  Hence the two agree whenever the points
differ. -/
lemma angleBetweenPoints_eq_atan2 {x1 y1 x2 y2 : ℝ}
    (h : ¬(x1 = x2 ∧ y1 = y2)) :
    angleBetweenPoints x1 y1 x2 y2 = Math.atan2 (y2 - y1) (x2 - x1) := by
  by_cases hx : x1 = x2
  · have hy : y1 ≠ y2 := fun hy => h ⟨hx, hy⟩
    subst hx
    unfold angleBetweenPoints
    rw [if_pos rfl, sub_self]
    rcases lt_or_gt_of_ne hy with hlt | hgt
    · rw [if_neg (lt_asymm hlt)]
      exact (atan2_pos_zero (sub_pos.mpr hlt)).symm
    · rw [if_pos hgt]
      exact (atan2_neg_zero (sub_neg.mpr hgt)).symm
  · unfold angleBetweenPoints
    rw [if_neg hx]

/-- Unfolding of the non-self branch of `buildLinkPathDefinition`. -/
lemma buildLinkPathDefinition_not_self (s t : Coords) (type : String)
    (bps : List Coords) (sid tid dir : String)
    (h : ¬(sid = tid ∧ s.x = t.x ∧ s.y = t.y)) :
    buildLinkPathDefinition s t type bps sid tid dir =
      PathCmd.move (s.x + offsetX s.x s.y t.x t.y) (s.y + offsetY s.x s.y t.x t.y)
        :: PathCmd.line
            (((t.x + offsetX s.x s.y t.x t.y) - (s.x + offsetX s.x s.y t.x t.y)) * 0.9
              + (s.x + offsetX s.x s.y t.x t.y))
            (((t.y + offsetY s.x s.y t.x t.y) - (s.y + offsetY s.x s.y t.x t.y)) * 0.9
              + (s.y + offsetY s.x s.y t.x t.y))
        :: List.zipWith
            (linkSegment (getRadiusStrategy ((LINE_TYPES_lookup type).getD LINE_TYPES_STRAIGHT)))
            (s :: (bps ++ [t])) (bps ++ [t]) := by
  simp only [buildLinkPathDefinition]
  rw [if_neg h]

/-- Unfolding of the self-link branch of `buildLinkPathDefinition`. -/
lemma buildLinkPathDefinition_self (s t : Coords) (type : String)
    (bps : List Coords) (sid tid dir : String)
    (h : sid = tid ∧ s.x = t.x ∧ s.y = t.y) :
    buildLinkPathDefinition s t type bps sid tid dir =
      if dir = SELF_LINK_DIRECTION_TOP_LEFT then
        [PathCmd.move s.x s.y, PathCmd.arc 40 30 45 1 1 (t.x + 1) (t.y - 1)]
      else if dir = SELF_LINK_DIRECTION_BOTTOM_LEFT then
        [PathCmd.move s.x s.y, PathCmd.arc 40 30 (-45) 1 1 (t.x - 1) (t.y - 1)]
      else if dir = SELF_LINK_DIRECTION_BOTTOM_RIGHT then
        [PathCmd.move s.x s.y, PathCmd.arc 40 30 45 1 1 (t.x - 1) (t.y + 1)]
      else
        [PathCmd.move s.x s.y, PathCmd.arc 40 30 (-45) 1 1 (t.x + 1) (t.y + 1)] := by
  simp only [buildLinkPathDefinition]
  rw [if_pos h]

/-- The straight strategy is selected for `"STRAIGHT"`. -/
lemma getRadiusStrategy_straight :
    getRadiusStrategy LINE_TYPES_STRAIGHT = straightLineRadius := by
  unfold getRadiusStrategy RADIUS_STRATEGIES
  rw [if_pos rfl]
  rfl

/-- The smooth-curve strategy is selected for `"CURVE_SMOOTH"`. -/
lemma getRadiusStrategy_smooth :
    getRadiusStrategy LINE_TYPES_CURVE_SMOOTH = smoothCurveRadius := by
  unfold getRadiusStrategy RADIUS_STRATEGIES
  rw [if_neg (by decide), if_pos rfl]
  rfl

/-- The full-curve strategy is selected for `"CURVE_FULL"`. -/
lemma getRadiusStrategy_full :
    getRadiusStrategy LINE_TYPES_CURVE_FULL = fullCurveRadius := by
  unfold getRadiusStrategy RADIUS_STRATEGIES
  rw [if_neg (by decide), if_neg (by decide), if_pos rfl]
  rfl

/-- `LINE_TYPES[type]` is `undefined` for unknown keys. -/
lemma LINE_TYPES_lookup_unknown {type : String}
    (h1 : type ≠ LINE_TYPES_STRAIGHT) (h2 : type ≠ LINE_TYPES_CURVE_SMOOTH)
    (h3 : type ≠ LINE_TYPES_CURVE_FULL) :
    LINE_TYPES_lookup type = none := by
  unfold LINE_TYPES_lookup
  rw [if_neg h1, if_neg h2, if_neg h3]

/-- `LINE_TYPES[t]` maps each known key to itself. -/
lemma LINE_TYPES_lookup_straight :
    LINE_TYPES_lookup LINE_TYPES_STRAIGHT = some LINE_TYPES_STRAIGHT := rfl

/-- `LINE_TYPES[t]` maps `"CURVE_SMOOTH"` to itself. -/
lemma LINE_TYPES_lookup_smooth :
    LINE_TYPES_lookup LINE_TYPES_CURVE_SMOOTH = some LINE_TYPES_CURVE_SMOOTH := by
  unfold LINE_TYPES_lookup
  rw [if_neg (by decide), if_pos rfl]

/-- `LINE_TYPES[t]` maps `"CURVE_FULL"` to itself. -/
lemma LINE_TYPES_lookup_full :
    LINE_TYPES_lookup LINE_TYPES_CURVE_FULL = some LINE_TYPES_CURVE_FULL := by
  unfold LINE_TYPES_lookup
  rw [if_neg (by decide), if_neg (by decide), if_pos rfl]

/-- The angle of a point with itself: the vertical branch fires and
returns `π/2` (`y1 > y2` is false). -/
lemma angleBetweenPoints_self (x y : ℝ) :
    angleBetweenPoints x y x y = Real.pi / 2 := by
  unfold angleBetweenPoints
  rw [if_pos rfl, if_neg (lt_irrefl y)]

/-- The offset X component for a zero-length segment is `3`. -/
lemma offsetX_self (x y : ℝ) : offsetX x y x y = 3 := by
  unfold offsetX LINE_POS_OFFSET
  rw [angleBetweenPoints_self, Real.sin_pi_div_two]
  ring

/-- The offset Y component for a zero-length segment is `0`. -/
lemma offsetY_self (x y : ℝ) : offsetY x y x y = 0 := by
  unfold offsetY LINE_POS_OFFSET
  rw [angleBetweenPoints_self, Real.cos_pi_div_two]
  ring

/-- Length of the chained arc list: one arc per point of
`breakPoints ++ [target]`. -/
lemma zipWith_cons_self_length {α β : Type} (f : α → α → β) (s : α) (pts : List α) :
    (List.zipWith f (s :: pts) pts).length = pts.length := by
  rw [List.length_zipWith]
  simp

/-- Every command produced by the segment map is an arc command. -/
lemma zipWith_linkSegment_isArc (f : ℝ → ℝ → ℝ → ℝ → ℝ)
    (l1 l2 : List Coords) :
    ∀ c ∈ List.zipWith (linkSegment f) l1 l2, c.isArc := by
  intro c hc
  obtain ⟨a, b, rfl⟩ := exists_of_mem_zipWith hc
  simp only [linkSegment]
  trivial

/-! ### Claim theorems -/

/-- Claim C8: for every input with `x1 = x2`, `angleBetweenPoints` returns
`−π/2` when `y1 > y2` and `π/2` otherwise; whenever additionally
`y1 ≠ y2`, this explicit branch returns the same value as the general
formula `atan2(y2 − y1, x2 − x1)`; at coincident points (`y1 = y2`) the
branch and the general formula disagree, so the branch is redundant
except there. -/
theorem angleBetweenPoints_vertical_spec (x1 y1 x2 y2 : ℝ) (h : x1 = x2) :
    (angleBetweenPoints x1 y1 x2 y2
        = if y1 > y2 then -(Real.pi / 2) else Real.pi / 2)
    ∧ (y1 ≠ y2 →
        angleBetweenPoints x1 y1 x2 y2 = Math.atan2 (y2 - y1) (x2 - x1))
    ∧ (y1 = y2 →
        angleBetweenPoints x1 y1 x2 y2 ≠ Math.atan2 (y2 - y1) (x2 - x1)) := by
  subst h
  refine ⟨?_, ?_, ?_⟩
  · unfold angleBetweenPoints
    rw [if_pos rfl]
  · intro hy
    exact angleBetweenPoints_eq_atan2 (fun hh => hy hh.2)
  · intro hy
    subst hy
    rw [angleBetweenPoints_self, sub_self, sub_self, atan2_zero_zero]
    exact div_ne_zero Real.pi_ne_zero two_ne_zero

/-- Witness for C8 at the concrete vertical input `(5,7)–(5,2)`. -/
theorem angleBetweenPoints_vertical_spec_witness :
    (5 : ℝ) = 5
    ∧ ((angleBetweenPoints 5 7 5 2
          = if (7 : ℝ) > 2 then -(Real.pi / 2) else Real.pi / 2)
      ∧ ((7 : ℝ) ≠ 2 →
          angleBetweenPoints 5 7 5 2 = Math.atan2 (2 - 7) (5 - 5))
      ∧ ((7 : ℝ) = 2 →
          angleBetweenPoints 5 7 5 2 ≠ Math.atan2 (2 - 7) (5 - 5))) :=
  ⟨rfl, angleBetweenPoints_vertical_spec 5 7 5 2 rfl⟩

/-- Claim C3: for a non-self regular link, the anti-collision offset added
to both the source and the target endpoint has components
`(3·sin θ, −3·cos θ)` with `θ = atan2(Δy, Δx)` of the source→target
vector (stated for links whose endpoints span a nonzero vector), its
magnitude is exactly `3`, and the same offset vector is added to both the
source (the move command) and the target (inside the 90% line-segment
formula). -/
theorem linkOffset_perpendicular_spec (sx sy tx ty : ℝ)
    (type sid tid dir : String) (bps : List Coords)
    (hns : ¬(sid = tid ∧ sx = tx ∧ sy = ty)) (hd : ¬(sx = tx ∧ sy = ty)) :
    (offsetX sx sy tx ty = 3 * Real.sin (Math.atan2 (ty - sy) (tx - sx))
      ∧ offsetY sx sy tx ty = -3 * Real.cos (Math.atan2 (ty - sy) (tx - sx)))
    ∧ Real.sqrt (offsetX sx sy tx ty ^ 2 + offsetY sx sy tx ty ^ 2) = 3
    ∧ ∃ rest,
        buildLinkPathDefinition ⟨sx, sy⟩ ⟨tx, ty⟩ type bps sid tid dir
          = PathCmd.move (sx + offsetX sx sy tx ty) (sy + offsetY sx sy tx ty)
            :: PathCmd.line
                (((tx + offsetX sx sy tx ty) - (sx + offsetX sx sy tx ty)) * 0.9
                  + (sx + offsetX sx sy tx ty))
                (((ty + offsetY sx sy tx ty) - (sy + offsetY sx sy tx ty)) * 0.9
                  + (sy + offsetY sx sy tx ty))
            :: rest := by
  have hang := angleBetweenPoints_eq_atan2 hd
  refine ⟨⟨?_, ?_⟩, ?_, ?_⟩
  · unfold offsetX LINE_POS_OFFSET
    rw [hang]
  · unfold offsetY LINE_POS_OFFSET
    rw [hang]
    ring
  · have h1 := Real.sin_sq_add_cos_sq (angleBetweenPoints sx sy tx ty)
    have h9 : offsetX sx sy tx ty ^ 2 + offsetY sx sy tx ty ^ 2 = 9 := by
      unfold offsetX offsetY LINE_POS_OFFSET
      nlinarith [h1]
    rw [h9, show (9 : ℝ) = 3 ^ 2 by norm_num,
      Real.sqrt_sq (by norm_num : (0 : ℝ) ≤ 3)]
  · exact ⟨_, buildLinkPathDefinition_not_self ⟨sx, sy⟩ ⟨tx, ty⟩ type bps sid tid dir hns⟩

/-- Witness for C3 at the concrete link `(0,0)→(4,0)` between nodes `"a"`
and `"b"`. -/
theorem linkOffset_perpendicular_spec_witness :
    (¬(("a" : String) = "b" ∧ (0 : ℝ) = 4 ∧ (0 : ℝ) = 0))
    ∧ (¬((0 : ℝ) = 4 ∧ (0 : ℝ) = 0))
    ∧ ((offsetX 0 0 4 0 = 3 * Real.sin (Math.atan2 (0 - 0) (4 - 0))
        ∧ offsetY 0 0 4 0 = -3 * Real.cos (Math.atan2 (0 - 0) (4 - 0)))
      ∧ Real.sqrt (offsetX 0 0 4 0 ^ 2 + offsetY 0 0 4 0 ^ 2) = 3
      ∧ ∃ rest,
          buildLinkPathDefinition ⟨0, 0⟩ ⟨4, 0⟩ LINE_TYPES_STRAIGHT []
              "a" "b" SELF_LINK_DIRECTION_TOP_RIGHT
            = PathCmd.move (0 + offsetX 0 0 4 0) (0 + offsetY 0 0 4 0)
              :: PathCmd.line
                  (((4 + offsetX 0 0 4 0) - (0 + offsetX 0 0 4 0)) * 0.9
                    + (0 + offsetX 0 0 4 0))
                  (((0 + offsetY 0 0 4 0) - (0 + offsetY 0 0 4 0)) * 0.9
                    + (0 + offsetY 0 0 4 0))
              :: rest) :=
  ⟨fun h => absurd h.1 (by decide), fun h => absurd h.1 (by norm_num),
    linkOffset_perpendicular_spec 0 0 4 0 LINE_TYPES_STRAIGHT "a" "b"
      SELF_LINK_DIRECTION_TOP_RIGHT []
      (fun h => absurd h.1 (by decide)) (fun h => absurd h.1 (by norm_num))⟩

/-- Claim C5: `fullCurveRadius` returns `1` for any endpoints, and every
arc segment emitted by `buildLinkPathDefinition` for line type
`CURVE_FULL` on a non-self link has radius exactly `1`, regardless of the
endpoints' distance or the breakpoints supplied. -/
theorem fullCurveRadius_always_one (x1 y1 x2 y2 : ℝ) :
    fullCurveRadius x1 y1 x2 y2 = 1
    ∧ ∀ (s t : Coords) (bps : List Coords) (sid tid dir : String),
        ¬(sid = tid ∧ s.x = t.x ∧ s.y = t.y) →
        ∃ mv ln,
          buildLinkPathDefinition s t LINE_TYPES_CURVE_FULL bps sid tid dir
            = mv :: ln
              :: List.zipWith
                  (fun prev cur => PathCmd.arc 1 1 0 0 1
                    (offsetX prev.x prev.y cur.x cur.y)
                    (offsetY prev.x prev.y cur.x cur.y))
                  (s :: (bps ++ [t])) (bps ++ [t]) := by
  refine ⟨rfl, ?_⟩
  intro s t bps sid tid dir h
  have heq := buildLinkPathDefinition_not_self s t LINE_TYPES_CURVE_FULL bps sid tid dir h
  rw [LINE_TYPES_lookup_full, Option.getD_some, getRadiusStrategy_full] at heq
  have hfun : linkSegment fullCurveRadius
      = fun prev cur => PathCmd.arc 1 1 0 0 1
          (offsetX prev.x prev.y cur.x cur.y)
          (offsetY prev.x prev.y cur.x cur.y) := by
    funext prev cur
    simp only [linkSegment, fullCurveRadius]
  rw [hfun] at heq
  exact ⟨_, _, heq⟩

/-- Witness for C5 at the concrete link `(0,0)→(5,5)` between `"a"` and
`"b"`. -/
theorem fullCurveRadius_always_one_witness :
    fullCurveRadius 0 0 5 5 = 1
    ∧ (¬(("a" : String) = "b" ∧ (0 : ℝ) = 5 ∧ (0 : ℝ) = 5))
    ∧ ∃ mv ln,
        buildLinkPathDefinition ⟨0, 0⟩ ⟨5, 5⟩ LINE_TYPES_CURVE_FULL []
            "a" "b" SELF_LINK_DIRECTION_TOP_RIGHT
          = mv :: ln
            :: List.zipWith
                (fun prev cur => PathCmd.arc 1 1 0 0 1
                  (offsetX prev.x prev.y cur.x cur.y)
                  (offsetY prev.x prev.y cur.x cur.y))
                ((⟨0, 0⟩ : Coords) :: ([] ++ [(⟨5, 5⟩ : Coords)])) ([] ++ [(⟨5, 5⟩ : Coords)]) :=
  ⟨(fullCurveRadius_always_one 0 0 5 5).1,
    fun h => absurd h.1 (by decide),
    (fullCurveRadius_always_one 0 0 5 5).2 ⟨0, 0⟩ ⟨5, 5⟩ [] "a" "b"
      SELF_LINK_DIRECTION_TOP_RIGHT (fun h => absurd h.1 (by decide))⟩

/-- Claim C4: for line type `CURVE_SMOOTH`, the radius of each emitted arc
segment equals exactly the Euclidean distance
`sqrt((x2−x1)² + (y2−y1)²)` between that segment's offset endpoints, i.e.
of the offset coordinates passed to the radius strategy. -/
theorem smoothCurveRadius_distance_spec :
    (∀ x1 y1 x2 y2 : ℝ,
      smoothCurveRadius x1 y1 x2 y2 = euclideanDistance x1 y1 x2 y2)
    ∧ ∀ (s t : Coords) (bps : List Coords) (sid tid dir : String),
        ¬(sid = tid ∧ s.x = t.x ∧ s.y = t.y) →
        ∃ mv ln,
          buildLinkPathDefinition s t LINE_TYPES_CURVE_SMOOTH bps sid tid dir
            = mv :: ln
              :: List.zipWith
                  (fun prev cur => PathCmd.arc
                    (euclideanDistance
                      (prev.x + offsetX prev.x prev.y cur.x cur.y)
                      (prev.y + offsetY prev.x prev.y cur.x cur.y)
                      (cur.x + offsetX prev.x prev.y cur.x cur.y)
                      (cur.y + offsetY prev.x prev.y cur.x cur.y))
                    (euclideanDistance
                      (prev.x + offsetX prev.x prev.y cur.x cur.y)
                      (prev.y + offsetY prev.x prev.y cur.x cur.y)
                      (cur.x + offsetX prev.x prev.y cur.x cur.y)
                      (cur.y + offsetY prev.x prev.y cur.x cur.y))
                    0 0 1
                    (offsetX prev.x prev.y cur.x cur.y)
                    (offsetY prev.x prev.y cur.x cur.y))
                  (s :: (bps ++ [t])) (bps ++ [t]) := by
  have hsc : ∀ x1 y1 x2 y2 : ℝ,
      smoothCurveRadius x1 y1 x2 y2 = euclideanDistance x1 y1 x2 y2 := by
    intro x1 y1 x2 y2
    unfold smoothCurveRadius euclideanDistance
    congr 1
    ring
  refine ⟨hsc, ?_⟩
  intro s t bps sid tid dir h
  have heq := buildLinkPathDefinition_not_self s t LINE_TYPES_CURVE_SMOOTH bps sid tid dir h
  rw [LINE_TYPES_lookup_smooth, Option.getD_some, getRadiusStrategy_smooth] at heq
  have hfun : linkSegment smoothCurveRadius
      = fun prev cur => PathCmd.arc
          (euclideanDistance
            (prev.x + offsetX prev.x prev.y cur.x cur.y)
            (prev.y + offsetY prev.x prev.y cur.x cur.y)
            (cur.x + offsetX prev.x prev.y cur.x cur.y)
            (cur.y + offsetY prev.x prev.y cur.x cur.y))
          (euclideanDistance
            (prev.x + offsetX prev.x prev.y cur.x cur.y)
            (prev.y + offsetY prev.x prev.y cur.x cur.y)
            (cur.x + offsetX prev.x prev.y cur.x cur.y)
            (cur.y + offsetY prev.x prev.y cur.x cur.y))
          0 0 1
          (offsetX prev.x prev.y cur.x cur.y)
          (offsetY prev.x prev.y cur.x cur.y) := by
    funext prev cur
    simp only [linkSegment]
    rw [hsc]
  rw [hfun] at heq
  exact ⟨_, _, heq⟩

/-- Witness for C4 at the concrete smooth-curve link `(0,0)→(3,4)`
between `"a"` and `"b"`. -/
theorem smoothCurveRadius_distance_spec_witness :
    smoothCurveRadius 0 0 3 4 = euclideanDistance 0 0 3 4
    ∧ (¬(("a" : String) = "b" ∧ (0 : ℝ) = 3 ∧ (0 : ℝ) = 4))
    ∧ ∃ mv ln,
        buildLinkPathDefinition ⟨0, 0⟩ ⟨3, 4⟩ LINE_TYPES_CURVE_SMOOTH []
            "a" "b" SELF_LINK_DIRECTION_TOP_RIGHT
          = mv :: ln
            :: List.zipWith
                (fun prev cur => PathCmd.arc
                  (euclideanDistance
                    (prev.x + offsetX prev.x prev.y cur.x cur.y)
                    (prev.y + offsetY prev.x prev.y cur.x cur.y)
                    (cur.x + offsetX prev.x prev.y cur.x cur.y)
                    (cur.y + offsetY prev.x prev.y cur.x cur.y))
                  (euclideanDistance
                    (prev.x + offsetX prev.x prev.y cur.x cur.y)
                    (prev.y + offsetY prev.x prev.y cur.x cur.y)
                    (cur.x + offsetX prev.x prev.y cur.x cur.y)
                    (cur.y + offsetY prev.x prev.y cur.x cur.y))
                  0 0 1
                  (offsetX prev.x prev.y cur.x cur.y)
                  (offsetY prev.x prev.y cur.x cur.y))
                ((⟨0, 0⟩ : Coords) :: ([] ++ [(⟨3, 4⟩ : Coords)])) ([] ++ [(⟨3, 4⟩ : Coords)]) :=
  ⟨smoothCurveRadius_distance_spec.1 0 0 3 4,
    fun h => absurd h.1 (by decide),
    smoothCurveRadius_distance_spec.2 ⟨0, 0⟩ ⟨3, 4⟩ [] "a" "b"
      SELF_LINK_DIRECTION_TOP_RIGHT (fun h => absurd h.1 (by decide))⟩

/-- Claim C6: for every line type string that is none of `STRAIGHT`,
`CURVE_SMOOTH`, `CURVE_FULL`, the selected radius strategy is the
straight-line strategy, `buildLinkPathDefinition` returns exactly what it
returns for `STRAIGHT`, and every emitted arc segment of a non-self link
has radius `0`. -/
theorem unknownLineType_falls_back_to_straight (type : String)
    (h1 : type ≠ LINE_TYPES_STRAIGHT) (h2 : type ≠ LINE_TYPES_CURVE_SMOOTH)
    (h3 : type ≠ LINE_TYPES_CURVE_FULL) :
    getRadiusStrategy ((LINE_TYPES_lookup type).getD LINE_TYPES_STRAIGHT)
      = straightLineRadius
    ∧ (∀ (s t : Coords) (bps : List Coords) (sid tid dir : String),
        buildLinkPathDefinition s t type bps sid tid dir
          = buildLinkPathDefinition s t LINE_TYPES_STRAIGHT bps sid tid dir)
    ∧ (∀ (s t : Coords) (bps : List Coords) (sid tid dir : String),
        ¬(sid = tid ∧ s.x = t.x ∧ s.y = t.y) →
        ∃ mv ln,
          buildLinkPathDefinition s t type bps sid tid dir
            = mv :: ln
              :: List.zipWith
                  (fun prev cur => PathCmd.arc 0 0 0 0 1
                    (offsetX prev.x prev.y cur.x cur.y)
                    (offsetY prev.x prev.y cur.x cur.y))
                  (s :: (bps ++ [t])) (bps ++ [t])) := by
  have hlookup := LINE_TYPES_lookup_unknown h1 h2 h3
  have hstrat : getRadiusStrategy ((LINE_TYPES_lookup type).getD LINE_TYPES_STRAIGHT)
      = straightLineRadius := by
    rw [hlookup, Option.getD_none, getRadiusStrategy_straight]
  refine ⟨hstrat, ?_, ?_⟩
  · intro s t bps sid tid dir
    by_cases hself : sid = tid ∧ s.x = t.x ∧ s.y = t.y
    · rw [buildLinkPathDefinition_self s t type bps sid tid dir hself,
        buildLinkPathDefinition_self s t LINE_TYPES_STRAIGHT bps sid tid dir hself]
    · rw [buildLinkPathDefinition_not_self s t type bps sid tid dir hself,
        buildLinkPathDefinition_not_self s t LINE_TYPES_STRAIGHT bps sid tid dir hself,
        hlookup, LINE_TYPES_lookup_straight, Option.getD_none, Option.getD_some]
  · intro s t bps sid tid dir h
    have heq := buildLinkPathDefinition_not_self s t type bps sid tid dir h
    rw [hlookup, Option.getD_none, getRadiusStrategy_straight] at heq
    have hfun : linkSegment straightLineRadius
        = fun prev cur => PathCmd.arc 0 0 0 0 1
            (offsetX prev.x prev.y cur.x cur.y)
            (offsetY prev.x prev.y cur.x cur.y) := by
      funext prev cur
      simp only [linkSegment, straightLineRadius]
    rw [hfun] at heq
    exact ⟨_, _, heq⟩

/-- Witness for C6 at the unknown line type `"WIGGLY"`, evaluated on the
link `(0,0)→(5,5)` between `"a"` and `"b"`. -/
theorem unknownLineType_falls_back_to_straight_witness :
    (("WIGGLY" : String) ≠ LINE_TYPES_STRAIGHT
      ∧ ("WIGGLY" : String) ≠ LINE_TYPES_CURVE_SMOOTH
      ∧ ("WIGGLY" : String) ≠ LINE_TYPES_CURVE_FULL)
    ∧ getRadiusStrategy ((LINE_TYPES_lookup "WIGGLY").getD LINE_TYPES_STRAIGHT)
        = straightLineRadius
    ∧ buildLinkPathDefinition ⟨0, 0⟩ ⟨5, 5⟩ "WIGGLY" [] "a" "b"
          SELF_LINK_DIRECTION_TOP_RIGHT
        = buildLinkPathDefinition ⟨0, 0⟩ ⟨5, 5⟩ LINE_TYPES_STRAIGHT [] "a" "b"
          SELF_LINK_DIRECTION_TOP_RIGHT
    ∧ (¬(("a" : String) = "b" ∧ (0 : ℝ) = 5 ∧ (0 : ℝ) = 5))
    ∧ ∃ mv ln,
        buildLinkPathDefinition ⟨0, 0⟩ ⟨5, 5⟩ "WIGGLY" [] "a" "b"
            SELF_LINK_DIRECTION_TOP_RIGHT
          = mv :: ln
            :: List.zipWith
                (fun prev cur => PathCmd.arc 0 0 0 0 1
                  (offsetX prev.x prev.y cur.x cur.y)
                  (offsetY prev.x prev.y cur.x cur.y))
                ((⟨0, 0⟩ : Coords) :: ([] ++ [(⟨5, 5⟩ : Coords)])) ([] ++ [(⟨5, 5⟩ : Coords)]) :=
  ⟨⟨by decide, by decide, by decide⟩,
    (unknownLineType_falls_back_to_straight "WIGGLY" (by decide) (by decide) (by decide)).1,
    (unknownLineType_falls_back_to_straight "WIGGLY" (by decide) (by decide) (by decide)).2.1
      ⟨0, 0⟩ ⟨5, 5⟩ [] "a" "b" SELF_LINK_DIRECTION_TOP_RIGHT,
    fun h => absurd h.1 (by decide),
    (unknownLineType_falls_back_to_straight "WIGGLY" (by decide) (by decide) (by decide)).2.2
      ⟨0, 0⟩ ⟨5, 5⟩ [] "a" "b" SELF_LINK_DIRECTION_TOP_RIGHT
      (fun h => absurd h.1 (by decide))⟩

/-- Claim C7: for every non-self regular link with breakpoint list `B`,
the emitted path is a move command at the offset source, followed by
exactly one straight line segment ending at 90% of the way from the
offset source to the offset target, followed by exactly `|B| + 1` arc
segments (one per breakpoint plus one for the final target). -/
theorem buildLink_structure_spec (s t : Coords) (type : String)
    (bps : List Coords) (sid tid dir : String)
    (h : ¬(sid = tid ∧ s.x = t.x ∧ s.y = t.y)) :
    ∃ arcs,
      buildLinkPathDefinition s t type bps sid tid dir
        = PathCmd.move (s.x + offsetX s.x s.y t.x t.y)
            (s.y + offsetY s.x s.y t.x t.y)
          :: PathCmd.line
              ((s.x + offsetX s.x s.y t.x t.y)
                + 0.9 * ((t.x + offsetX s.x s.y t.x t.y)
                  - (s.x + offsetX s.x s.y t.x t.y)))
              ((s.y + offsetY s.x s.y t.x t.y)
                + 0.9 * ((t.y + offsetY s.x s.y t.x t.y)
                  - (s.y + offsetY s.x s.y t.x t.y)))
          :: arcs
      ∧ arcs.length = bps.length + 1
      ∧ ∀ c ∈ arcs, c.isArc := by
  have heq := buildLinkPathDefinition_not_self s t type bps sid tid dir h
  refine ⟨List.zipWith
      (linkSegment (getRadiusStrategy ((LINE_TYPES_lookup type).getD LINE_TYPES_STRAIGHT)))
      (s :: (bps ++ [t])) (bps ++ [t]), ?_, ?_, ?_⟩
  · rw [heq]
    simp only [List.cons.injEq, PathCmd.line.injEq]
    exact ⟨trivial, ⟨by ring, by ring⟩, trivial⟩
  · rw [zipWith_cons_self_length]
    simp
  · exact zipWith_linkSegment_isArc _ _ _

/-- Witness for C7 on the link `(0,0)→(10,0)` with one breakpoint
`(5,5)`, between `"a"` and `"b"`. -/
theorem buildLink_structure_spec_witness :
    (¬(("a" : String) = "b" ∧ (0 : ℝ) = 10 ∧ (0 : ℝ) = 0))
    ∧ ∃ arcs,
        buildLinkPathDefinition ⟨0, 0⟩ ⟨10, 0⟩ LINE_TYPES_STRAIGHT [⟨5, 5⟩]
            "a" "b" SELF_LINK_DIRECTION_TOP_RIGHT
          = PathCmd.move ((0 : ℝ) + offsetX 0 0 10 0) ((0 : ℝ) + offsetY 0 0 10 0)
            :: PathCmd.line
                (((0 : ℝ) + offsetX 0 0 10 0)
                  + 0.9 * (((10 : ℝ) + offsetX 0 0 10 0) - ((0 : ℝ) + offsetX 0 0 10 0)))
                (((0 : ℝ) + offsetY 0 0 10 0)
                  + 0.9 * (((0 : ℝ) + offsetY 0 0 10 0) - ((0 : ℝ) + offsetY 0 0 10 0)))
            :: arcs
        ∧ arcs.length = [(⟨5, 5⟩ : Coords)].length + 1
        ∧ ∀ c ∈ arcs, c.isArc :=
  ⟨fun h => absurd h.1 (by decide),
    buildLink_structure_spec ⟨0, 0⟩ ⟨10, 0⟩ LINE_TYPES_STRAIGHT [⟨5, 5⟩]
      "a" "b" SELF_LINK_DIRECTION_TOP_RIGHT (fun h => absurd h.1 (by decide))⟩

/-- Claim C9: for coincident endpoints of a non-self link
(`sourceId ≠ targetId` but identical coordinates), the total function
`buildLinkPathDefinition` returns a well-formed degenerate path: a move
and a line command at the same point (a zero-length straight segment)
followed by the usual arc commands; no error case exists. -/
theorem buildLink_zero_length_total (x y : ℝ) (type : String)
    (bps : List Coords) (sid tid dir : String) (h : sid ≠ tid) :
    ∃ rest,
      buildLinkPathDefinition ⟨x, y⟩ ⟨x, y⟩ type bps sid tid dir
        = PathCmd.move (x + 3) y :: PathCmd.line (x + 3) y :: rest
      ∧ rest.length = bps.length + 1
      ∧ ∀ c ∈ rest, c.isArc := by
  have hns : ¬(sid = tid ∧ (⟨x, y⟩ : Coords).x = (⟨x, y⟩ : Coords).x
      ∧ (⟨x, y⟩ : Coords).y = (⟨x, y⟩ : Coords).y) := fun hh => h hh.1
  have heq := buildLinkPathDefinition_not_self ⟨x, y⟩ ⟨x, y⟩ type bps sid tid dir hns
  rw [offsetX_self, offsetY_self] at heq
  refine ⟨List.zipWith
      (linkSegment (getRadiusStrategy ((LINE_TYPES_lookup type).getD LINE_TYPES_STRAIGHT)))
      ((⟨x, y⟩ : Coords) :: (bps ++ [(⟨x, y⟩ : Coords)])) (bps ++ [(⟨x, y⟩ : Coords)]),
      ?_, ?_, ?_⟩
  · rw [heq]
    simp [add_zero, sub_self, zero_mul, zero_add]
  · rw [zipWith_cons_self_length]
    simp
  · exact zipWith_linkSegment_isArc _ _ _

/-- Witness for C9 at the zero-length link `(7,2)→(7,2)` between the
distinct nodes `"a"` and `"b"`. -/
theorem buildLink_zero_length_total_witness :
    ("a" : String) ≠ "b"
    ∧ ∃ rest,
        buildLinkPathDefinition ⟨7, 2⟩ ⟨7, 2⟩ LINE_TYPES_STRAIGHT []
            "a" "b" SELF_LINK_DIRECTION_TOP_RIGHT
          = PathCmd.move ((7 : ℝ) + 3) 2 :: PathCmd.line ((7 : ℝ) + 3) 2 :: rest
        ∧ rest.length = ([] : List Coords).length + 1
        ∧ ∀ c ∈ rest, c.isArc :=
  ⟨by decide,
    buildLink_zero_length_total 7 2 LINE_TYPES_STRAIGHT [] "a" "b"
      SELF_LINK_DIRECTION_TOP_RIGHT (by decide)⟩

/-- The angle of the horizontal segment `(0,0)→(10,0)` is `0`. -/
lemma angleBetweenPoints_horizontal : angleBetweenPoints 0 0 10 0 = 0 := by
  unfold angleBetweenPoints
  rw [if_neg (by norm_num : ¬(0 : ℝ) = 10),
    show (0 : ℝ) - 0 = 0 by norm_num, show (10 : ℝ) - 0 = 10 by norm_num]
  exact atan2_zero_pos (by norm_num)

/-- The offset X component of the segment `(0,0)→(10,0)` is `0`. -/
lemma offsetX_horizontal : offsetX 0 0 10 0 = 0 := by
  unfold offsetX LINE_POS_OFFSET
  rw [angleBetweenPoints_horizontal, Real.sin_zero]
  ring

/-- The offset Y component of the segment `(0,0)→(10,0)` is `-3`. -/
lemma offsetY_horizontal : offsetY 0 0 10 0 = -3 := by
  unfold offsetY LINE_POS_OFFSET
  rw [angleBetweenPoints_horizontal, Real.cos_zero]
  ring

/-- Claim C2 fails on the code: for the straight link `(0,0)→(10,0)`
between distinct nodes `"a"` and `"b"`, the emitted path is
`M0,-3 L9,-3 A0,0 0 0,1 0,-3` — its final arc ends at the offset vector
`(0,−3)` itself, while the offset target (the point the claim says the
path must end at) is `(10,−3) ≠ (0,−3)`. -/
theorem buildLink_arc_endpoint_divergence :
    buildLinkPathDefinition ⟨0, 0⟩ ⟨10, 0⟩ LINE_TYPES_STRAIGHT [] "a" "b"
        SELF_LINK_DIRECTION_TOP_RIGHT
      = [PathCmd.move 0 (-3), PathCmd.line 9 (-3), PathCmd.arc 0 0 0 0 1 0 (-3)]
    ∧ ((10 : ℝ) + offsetX 0 0 10 0, (0 : ℝ) + offsetY 0 0 10 0) = ((10 : ℝ), (-3 : ℝ))
    ∧ ((0 : ℝ), (-3 : ℝ)) ≠ ((10 : ℝ), (-3 : ℝ)) := by
  have hns : ¬(("a" : String) = "b" ∧ (⟨0, 0⟩ : Coords).x = (⟨10, 0⟩ : Coords).x
      ∧ (⟨0, 0⟩ : Coords).y = (⟨10, 0⟩ : Coords).y) := fun hh => absurd hh.1 (by decide)
  have heq := buildLinkPathDefinition_not_self ⟨0, 0⟩ ⟨10, 0⟩ LINE_TYPES_STRAIGHT []
    "a" "b" SELF_LINK_DIRECTION_TOP_RIGHT hns
  rw [LINE_TYPES_lookup_straight, Option.getD_some, getRadiusStrategy_straight] at heq
  refine ⟨?_, ?_, ?_⟩
  · rw [heq]
    simp only [List.nil_append, List.zipWith_cons_cons, List.zipWith_nil_right,
      linkSegment, straightLineRadius]
    norm_num [offsetX_horizontal, offsetY_horizontal]
  · norm_num [offsetX_horizontal, offsetY_horizontal]
  · norm_num

/-- Claim C1: for a self-link (equal ids and equal coordinates)
`buildLinkPathDefinition` returns one of four fixed elliptical arcs of
radii `(40,30)` with a `±1` endpoint offset selected by
`selfLinkDirection`; at `(100,100)` the TOP_RIGHT (default) direction
renders exactly `"M100,100 A40,30 -45 1,1 101,101"` and TOP_LEFT renders
exactly `"M100,100 A40,30 45 1,1 101,99"`. -/
theorem selfLink_fixed_arcs_spec :
    (buildLinkPathDefinition ⟨100, 100⟩ ⟨100, 100⟩ LINE_TYPES_STRAIGHT []
          "n1" "n1" SELF_LINK_DIRECTION_TOP_RIGHT
        = ([PathCmdZ.move 100 100,
            PathCmdZ.arc 40 30 (-45) 1 1 101 101]).map PathCmdZ.toPathCmd
      ∧ renderPathZ [PathCmdZ.move 100 100, PathCmdZ.arc 40 30 (-45) 1 1 101 101]
        = "M100,100 A40,30 -45 1,1 101,101")
    ∧ (buildLinkPathDefinition ⟨100, 100⟩ ⟨100, 100⟩ LINE_TYPES_STRAIGHT []
          "n1" "n1" SELF_LINK_DIRECTION_TOP_LEFT
        = ([PathCmdZ.move 100 100,
            PathCmdZ.arc 40 30 45 1 1 101 99]).map PathCmdZ.toPathCmd
      ∧ renderPathZ [PathCmdZ.move 100 100, PathCmdZ.arc 40 30 45 1 1 101 99]
        = "M100,100 A40,30 45 1,1 101,99")
    ∧ ∀ (x y : ℝ) (type : String) (bps : List Coords) (id dir : String),
        buildLinkPathDefinition ⟨x, y⟩ ⟨x, y⟩ type bps id id dir
            = [PathCmd.move x y, PathCmd.arc 40 30 45 1 1 (x + 1) (y - 1)]
        ∨ buildLinkPathDefinition ⟨x, y⟩ ⟨x, y⟩ type bps id id dir
            = [PathCmd.move x y, PathCmd.arc 40 30 (-45) 1 1 (x - 1) (y - 1)]
        ∨ buildLinkPathDefinition ⟨x, y⟩ ⟨x, y⟩ type bps id id dir
            = [PathCmd.move x y, PathCmd.arc 40 30 45 1 1 (x - 1) (y + 1)]
        ∨ buildLinkPathDefinition ⟨x, y⟩ ⟨x, y⟩ type bps id id dir
            = [PathCmd.move x y, PathCmd.arc 40 30 (-45) 1 1 (x + 1) (y + 1)] := by
  refine ⟨⟨?_, rfl⟩, ⟨?_, rfl⟩, ?_⟩
  · rw [buildLinkPathDefinition_self ⟨100, 100⟩ ⟨100, 100⟩ LINE_TYPES_STRAIGHT []
      "n1" "n1" SELF_LINK_DIRECTION_TOP_RIGHT ⟨rfl, rfl, rfl⟩,
      if_neg (by decide), if_neg (by decide), if_neg (by decide)]
    simp only [List.map, PathCmdZ.toPathCmd]
    norm_num
  · rw [buildLinkPathDefinition_self ⟨100, 100⟩ ⟨100, 100⟩ LINE_TYPES_STRAIGHT []
      "n1" "n1" SELF_LINK_DIRECTION_TOP_LEFT ⟨rfl, rfl, rfl⟩,
      if_pos rfl]
    simp only [List.map, PathCmdZ.toPathCmd]
    norm_num
  · intro x y type bps id dir
    have h := buildLinkPathDefinition_self ⟨x, y⟩ ⟨x, y⟩ type bps id id dir
      ⟨rfl, rfl, rfl⟩
    by_cases h1 : dir = SELF_LINK_DIRECTION_TOP_LEFT
    · left
      rw [h, if_pos h1]
    · by_cases h2 : dir = SELF_LINK_DIRECTION_BOTTOM_LEFT
      · right; left
        rw [h, if_neg h1, if_pos h2]
      · by_cases h3 : dir = SELF_LINK_DIRECTION_BOTTOM_RIGHT
        · right; right; left
          rw [h, if_neg h1, if_neg h2, if_pos h3]
        · right; right; right
          rw [h, if_neg h1, if_neg h2, if_neg h3]

/-- Claim C10: for a self-link, any `selfLinkDirection` outside
TOP_LEFT/BOTTOM_LEFT/BOTTOM_RIGHT (unknown strings and the TOP_RIGHT
default alike) falls to the switch default and produces exactly the
TOP_RIGHT arc `M{x},{y} A40,30 -45 1,1 {x+1},{y+1}`. -/
theorem unknownSelfLinkDirection_spec (x y : ℤ) (type id dir : String)
    (bps : List Coords)
    (h1 : dir ≠ SELF_LINK_DIRECTION_TOP_LEFT)
    (h2 : dir ≠ SELF_LINK_DIRECTION_BOTTOM_LEFT)
    (h3 : dir ≠ SELF_LINK_DIRECTION_BOTTOM_RIGHT) :
    buildLinkPathDefinition ⟨(x : ℝ), (y : ℝ)⟩ ⟨(x : ℝ), (y : ℝ)⟩ type bps id id dir
      = ([PathCmdZ.move x y,
          PathCmdZ.arc 40 30 (-45) 1 1 (x + 1) (y + 1)]).map PathCmdZ.toPathCmd
    ∧ renderPathZ [PathCmdZ.move x y, PathCmdZ.arc 40 30 (-45) 1 1 (x + 1) (y + 1)]
      = "M" ++ toString x ++ "," ++ toString y ++ " A40,30 -45 1,1 "
        ++ toString (x + 1) ++ "," ++ toString (y + 1) := by
  constructor
  · rw [buildLinkPathDefinition_self ⟨(x : ℝ), (y : ℝ)⟩ ⟨(x : ℝ), (y : ℝ)⟩ type bps
      id id dir ⟨rfl, rfl, rfl⟩, if_neg h1, if_neg h2, if_neg h3]
    simp only [List.map, PathCmdZ.toPathCmd]
    push_cast
    norm_num
  · show ("" ++ ("M" ++ toString x ++ "," ++ toString y))
        ++ (" A" ++ toString (40 : ℤ) ++ "," ++ toString (30 : ℤ) ++ " "
          ++ toString (-45 : ℤ) ++ " " ++ toString (1 : ℕ) ++ "," ++ toString (1 : ℕ)
          ++ " " ++ toString (x + 1) ++ "," ++ toString (y + 1))
      = "M" ++ toString x ++ "," ++ toString y ++ " A40,30 -45 1,1 "
          ++ toString (x + 1) ++ "," ++ toString (y + 1)
    rw [show " A" ++ toString (40 : ℤ) ++ "," ++ toString (30 : ℤ) ++ " "
          ++ toString (-45 : ℤ) ++ " " ++ toString (1 : ℕ) ++ "," ++ toString (1 : ℕ)
          ++ " " = " A40,30 -45 1,1 " from rfl]
    rw [String.empty_append]
    simp [String.append_assoc]

/-- Witness for C10 at `(100,100)` with the unknown direction
`"UNKNOWN"`. -/
theorem unknownSelfLinkDirection_spec_witness :
    (("UNKNOWN" : String) ≠ SELF_LINK_DIRECTION_TOP_LEFT
      ∧ ("UNKNOWN" : String) ≠ SELF_LINK_DIRECTION_BOTTOM_LEFT
      ∧ ("UNKNOWN" : String) ≠ SELF_LINK_DIRECTION_BOTTOM_RIGHT)
    ∧ (buildLinkPathDefinition ⟨((100 : ℤ) : ℝ), ((100 : ℤ) : ℝ)⟩
          ⟨((100 : ℤ) : ℝ), ((100 : ℤ) : ℝ)⟩ LINE_TYPES_STRAIGHT [] "n1" "n1" "UNKNOWN"
        = ([PathCmdZ.move 100 100,
            PathCmdZ.arc 40 30 (-45) 1 1 (100 + 1) (100 + 1)]).map PathCmdZ.toPathCmd
      ∧ renderPathZ [PathCmdZ.move 100 100, PathCmdZ.arc 40 30 (-45) 1 1 (100 + 1) (100 + 1)]
        = "M" ++ toString (100 : ℤ) ++ "," ++ toString (100 : ℤ) ++ " A40,30 -45 1,1 "
          ++ toString ((100 : ℤ) + 1) ++ "," ++ toString ((100 : ℤ) + 1)) :=
  ⟨⟨by decide, by decide, by decide⟩,
    unknownSelfLinkDirection_spec 100 100 LINE_TYPES_STRAIGHT "n1" "UNKNOWN" []
      (by decide) (by decide) (by decide)⟩
